import Mathlib

/-!
# Verification of the ASIO sound-device engine (SoundDeviceASIO.cpp)

Shallow embedding of the real-time audio I/O engine of `CASIODevice`:
buffer-size negotiation, unified sample-format selection, latency
computation, the stop/close/silence state machine, fault containment,
and the dynamic-capability query.  Machine integers are modelled as
`Int`/`Nat` (with `% 2 ^ 64` where the source uses `uint64` counters),
`double` quantities that the claims constrain exactly are modelled as
`ℚ`, and fallible driver calls are modelled with `Option`/`Except`.
-/

namespace AsioDevice

/-- Driver-reported buffer-size constraints (`ASIO::BufferSizes`). -/
structure BufferSizes where
  min : Int
  max : Int
  preferred : Int
  granularity : Int
deriving DecidableEq

/-- `std::clamp(v, lo, hi)`: `lo` if `v < lo`, `hi` if `hi < v`, else `v`. -/
def clampLong (v lo hi : Int) : Int :=
  if v < lo then lo else if hi < v then hi else v

/-- One step of halving for the power-of-two test; structural fuel makes it
kernel-executable.  `isPow2Go fuel n = true` iff `n` is a power of two
(for `fuel ≥ n`). -/
def isPow2Go : Nat → Nat → Bool
  | 0, _ => false
  | _ + 1, 0 => false
  | _ + 1, 1 => true
  | fuel + 1, n + 2 =>
    if (n + 2) % 2 = 0 then isPow2Go fuel ((n + 2) / 2) else false

/-- `mpt::weight(x) == 1` for a nonnegative `ASIO::Long`: exactly one bit is
set, i.e. `x` is a positive power of two.  (The source only evaluates this
on `Min`/`Max` after the degenerate check guaranteed them positive.) -/
def intWeightIsOne (x : Int) : Bool :=
  isPow2Go x.toNat x.toNat

/-- The loop `for(bufSize = 1; bufSize <= Max && bufSize <= bufTarget; bufSize *= 2)
{ if(bufSize >= Min) m_nAsioBufferLen = bufSize; }` from the
`granularity == -1`, non-power-of-two-bounds branch of `InternalOpen`.
`cur` is the current value of `m_nAsioBufferLen`; structural fuel stands in
for the termination argument of the doubling loop. -/
def pow2ScanFromOneGo : Nat → Int → Int → Int → Int → Int → Int
  | 0, _, _, _, _, cur => cur
  | fuel + 1, minS, maxS, bufTarget, bufSize, cur =>
    if bufSize ≤ maxS ∧ bufSize ≤ bufTarget then
      pow2ScanFromOneGo fuel minS maxS bufTarget (2 * bufSize)
        (if minS ≤ bufSize then bufSize else cur)
    else cur

/-- The loop `for(bufSize = Min; bufSize <= Max && bufSize <= bufTarget; bufSize *= 2)
{ m_nAsioBufferLen = bufSize; }` from the clean `granularity == -1` branch. -/
def pow2ScanFromMinGo : Nat → Int → Int → Int → Int → Int
  | 0, _, _, _, cur => cur
  | fuel + 1, maxS, bufTarget, bufSize, cur =>
    if bufSize ≤ maxS ∧ bufSize ≤ bufTarget then
      pow2ScanFromMinGo fuel maxS bufTarget (2 * bufSize) bufSize
    else cur

/-- The loop `for(bufSize = Min; bufSize <= Max && bufSize <= bufTarget;
bufSize += Granularity) { m_nAsioBufferLen = bufSize; }` from the
`granularity > 0` branch. -/
def granScanGo : Nat → Int → Int → Int → Int → Int → Int
  | 0, _, _, _, _, cur => cur
  | fuel + 1, maxS, bufTarget, gran, bufSize, cur =>
    if bufSize ≤ maxS ∧ bufSize ≤ bufTarget then
      granScanGo fuel maxS bufTarget gran (bufSize + gran) bufSize
    else cur

/-- Fuel sufficient for each scan loop: every iteration advances `bufSize`
by at least one (doubling from a positive value, or adding a positive
granularity), and the loop stops once `bufSize` exceeds `maxS`. -/
def loopFuel (maxS bufSize : Int) : Nat :=
  (maxS + 1 - bufSize).toNat

/-- The buffer-length negotiation ladder of `CASIODevice::InternalOpen`
(the `bufferSizes` branch cascade), as a function of the target frame
count `target = mpt::saturate_round<int32>(Latency * Samplerate / 2.0)`
and the driver-reported `BufferSizes`. -/
def negotiateBufferLen (target : Int) (b : BufferSizes) : Int :=
  if b.min ≤ 0 ∨ b.max ≤ 0 ∨ b.max < b.min then
    -- limits make no sense
    if 0 < b.preferred then b.preferred else target
  else if b.granularity < -1 then
    -- granularity value not allowed, just clamp value
    clampLong target b.min b.max
  else if b.granularity = -1 ∧ (intWeightIsOne b.min = false ∨ intWeightIsOne b.max = false) then
    -- power-of-2 required, but min or max is no power of 2: clamp, then
    -- start at 1 and find a matching power of 2 in range
    pow2ScanFromOneGo (loopFuel b.max 1) b.min b.max
      (clampLong target b.min b.max) 1 (clampLong target b.min b.max)
  else if b.granularity = -1 then
    -- sane values, power-of-2 size required between min and max
    pow2ScanFromMinGo (loopFuel b.max b.min) b.max
      (clampLong target b.min b.max) b.min (clampLong target b.min b.max)
  else if 0 < b.granularity then
    -- buffer size in granularity steps from min to max
    granScanGo (loopFuel b.max b.min) b.max
      (clampLong target b.min b.max) b.granularity b.min (clampLong target b.min b.max)
  else
    -- granularity == 0: use preferred if possible
    if 0 < b.preferred then b.preferred
    else if b.max ≤ target then b.max
    else b.min

example : negotiateBufferLen 500 ⟨64, 1024, 256, -1⟩ = 256 := by decide
example : negotiateBufferLen 2000 ⟨64, 1024, 256, -1⟩ = 1024 := by decide
example : negotiateBufferLen 330 ⟨100, 500, 0, 50⟩ = 300 := by decide
example : negotiateBufferLen 999 ⟨100, 500, 256, 0⟩ = 256 := by decide
example : negotiateBufferLen 256 ⟨64, 512, 1024, 0⟩ = 1024 := by decide
example : negotiateBufferLen 500 ⟨48, 1024, 256, -1⟩ = 256 := by decide

/-! ## Sample formats and channel sample traits -/

/-- The five unified sample representations (`SampleFormatInt16` … `SampleFormatFloat64`). -/
inductive SampleFormat where
  | int16
  | int24
  | int32
  | float32
  | float64
deriving DecidableEq

/-- `ASIO::Sample::Traits` of a hardware channel sample type: floatness,
valid bits, container size in bytes, big-endianness. -/
structure SampleTraits where
  is_float : Bool
  valid_bits : Nat
  size_bytes : Nat
  is_be : Bool
deriving DecidableEq

/-- One iteration of the channel-classification loop of `InternalOpen`:
clears each of the four `allChannelsAre…` flags when the current channel
fails the corresponding predicate. -/
def classifyStep (littleEndian : Bool) (acc : Bool × Bool × Bool × Bool)
    (t : SampleTraits) : Bool × Bool × Bool × Bool :=
  let allInt := acc.1
  let allInt16 := acc.2.1
  let allNat24 := acc.2.2.1
  let allF32 := acc.2.2.2
  let isFloat := t.is_float
  let isFloat32 := t.is_float && t.valid_bits == 32
  let isInt16ValidBits := !t.is_float && t.valid_bits == 16
  let isInt24 := !t.is_float && t.size_bytes == 3 && t.valid_bits == 24
  let isNative := (littleEndian && !t.is_be) || (!littleEndian && t.is_be)
  ( if isFloat then false else allInt,
    if !isInt16ValidBits then false else allInt16,
    if !(isInt24 && isNative) then false else allNat24,
    if !isFloat32 then false else allF32 )

/-- The flag-accumulation loop of `InternalOpen` over `m_ChannelInfo`:
folds `(allChannelsAreInt, allChannelsAreInt16ValidBits,
allChannelsAreNativeInt24, allChannelsAreFloat32)` over the per-channel
sample traits.  `littleEndian` is `mpt::endian_is_little()`. -/
def classifyChannels (littleEndian : Bool) (traits : List SampleTraits) :
    Bool × Bool × Bool × Bool :=
  traits.foldl (classifyStep littleEndian) (true, true, true, true)

/-- Modelled from the spec: the unified-representation selection ladder as
the spec states it (§4.3 / claim C3), with each rule requiring its
predicate to hold for all active channels simultaneously.  Used as the
specification side of the refinement against `classifyChannels`-based
selection in the source. -/
def specUnifiedFormat (littleEndian : Bool) (traits : List SampleTraits) : SampleFormat :=
  if traits.all (fun t => !t.is_float && t.valid_bits == 16) then .int16
  else if traits.all (fun t =>
      (!t.is_float && t.size_bytes == 3 && t.valid_bits == 24) &&
      ((littleEndian && !t.is_be) || (!littleEndian && t.is_be))) then .int24
  else if traits.all (fun t => !t.is_float) then .int32
  else if traits.all (fun t => t.is_float && t.valid_bits == 32) then .float32
  else .float64

/-! ## Device state -/

/-- Exceptions that a call into driver code can raise, by the kinds the
fault-containment wrapper distinguishes. -/
inductive AsioExn where
  | driverCrash
  | badAlloc
  | driverLoadFailed
  | driverInitFailed
  | asioError
  | stdException
  | unknownExn
deriving DecidableEq

/-- Outcome of `CASIODevice::ExceptionHandler` for one caught exception. -/
inductive HandlerOutcome where
  | absorbed
  | absorbedWithTaint
  | raisedOutOfMemory
deriving DecidableEq

/-- `CASIODevice::ExceptionHandler`: a driver crash taints the process and
is absorbed; `std::bad_alloc` is re-raised as the canonical out-of-memory
fault (`MPT_EXCEPTION_THROW_OUT_OF_MEMORY`); driver load/init failures,
`ASIO::Error`, other `std::exception`s and unknown exceptions are logged
and absorbed. -/
def exceptionHandler : AsioExn → HandlerOutcome
  | .driverCrash => .absorbedWithTaint
  | .badAlloc => .raisedOutOfMemory
  | .driverLoadFailed => .absorbed
  | .driverInitFailed => .absorbed
  | .asioError => .absorbed
  | .stdException => .absorbed
  | .unknownExn => .absorbed

/-- Run a driver call under `try { … } catch(...) { ExceptionHandler(); }`:
no exception, or any absorbed exception, lets execution continue; a
`bad_alloc` makes the handler itself throw, which propagates. -/
def absorbDriverCall (exn : Option AsioExn) : Except HandlerOutcome Unit :=
  match exn with
  | none => .ok ()
  | some e =>
    match exceptionHandler e with
    | .raisedOutOfMemory => .error .raisedOutOfMemory
    | _ => .ok ()

/-- The `AsioFeatures` bit-set (`m_UsedFeatures`), as one Bool per flag. -/
structure AsioFeatures where
  resetRequest : Bool
  resyncRequest : Bool
  bufferSizeChange : Bool
  overload : Bool
  sampleRateChange : Bool
  deferredProcess : Bool
deriving DecidableEq

def AsioFeatures.none : AsioFeatures :=
  ⟨false, false, false, false, false, false⟩

/-- The subset of `m_Settings` the modelled operations read or write.
Immutable once a session is open, except `sampleFormat`, which
`InternalOpen` assigns from the unification result. -/
structure Settings where
  samplerate : Nat
  channels : Nat
  inputChannels : Nat
  keepDeviceRunning : Bool
  sampleFormat : SampleFormat
deriving DecidableEq

/-- The mutable state of a `CASIODevice`, with the driver-owned vectors
abstracted to their lengths (the claims only constrain emptiness and
sizing).  `stopCalls`/`startCalls` are the observable trace of
`AsioDriver()->stop()`/`start()` invocations; `requestCloseCalled` records
`RequestClose()` (both are observation points the claims name, not
members of the C++ class). -/
structure DeviceState where
  settings : Settings
  driverOpen : Bool
  deviceUnavailableOnOpen : Bool
  bufferLatency : ℚ
  nAsioBufferLen : Int
  bufferInfoLen : Nat
  buffersCreated : Bool
  channelInfoLen : Nat
  sampleBufferDouble : Nat
  sampleBufferFloat : Nat
  sampleBufferInt16 : Nat
  sampleBufferInt24 : Nat
  sampleBufferInt32 : Nat
  sampleInputBufferDouble : Nat
  sampleInputBufferFloat : Nat
  sampleInputBufferInt16 : Nat
  sampleInputBufferInt24 : Nat
  sampleInputBufferInt32 : Nat
  canOutputReady : Bool
  deviceRunning : Bool
  totalFramesWritten : Nat
  deferredProcessing : Bool
  bufferIndex : Nat
  renderSilence : Bool
  renderingSilence : Bool
  streamPositionOffset : Nat
  usedFeatures : AsioFeatures
  stopCalls : Nat
  startCalls : Nat
  requestCloseCalled : Bool
deriving DecidableEq

/-- `CASIODevice::InitMembers`. -/
def initMembers (st : DeviceState) : DeviceState :=
  { st with
    driverOpen := false
    bufferLatency := 0
    nAsioBufferLen := 0
    bufferInfoLen := 0
    buffersCreated := false
    channelInfoLen := 0
    sampleBufferDouble := 0
    sampleBufferFloat := 0
    sampleBufferInt16 := 0
    sampleBufferInt24 := 0
    sampleBufferInt32 := 0
    sampleInputBufferDouble := 0
    sampleInputBufferFloat := 0
    sampleInputBufferInt16 := 0
    sampleInputBufferInt24 := 0
    sampleInputBufferInt32 := 0
    canOutputReady := false
    deviceRunning := false
    totalFramesWritten := 0
    deferredProcessing := false
    bufferIndex := 0
    renderSilence := false
    renderingSilence := false }

/-- `CASIODevice::CloseDriver`: releases the driver connection and the
deferred dispatch helper; a no-op when already closed. -/
def closeDriver (st : DeviceState) : DeviceState :=
  if st.driverOpen then { st with driverOpen := false } else st

/-- `CASIODevice::SetRenderSilence(silence, wait)`: stores the silence
request; the optional bounded wait only polls `m_RenderingSilence` and
asserts on timeout, mutating no modelled state. -/
def setRenderSilence (st : DeviceState) (silence : Bool) : DeviceState :=
  { st with renderSilence := silence }

/-! ## Unified-format selection and working-buffer sizing at open -/

/-- The format-selection and working-buffer-resize tail of `InternalOpen`
(after `getChannelInfo`): chooses `m_Settings.sampleFormat` from the
channel classification flags and resizes exactly the matching output and
input working buffers to `m_nAsioBufferLen * channels`. -/
def applySampleFormatSelection (littleEndian : Bool) (st : DeviceState)
    (traits : List SampleTraits) : DeviceState :=
  let flags := classifyChannels littleEndian traits
  if flags.2.1 then
    { st with
      settings := { st.settings with sampleFormat := .int16 }
      sampleBufferInt16 := st.nAsioBufferLen.toNat * st.settings.channels
      sampleInputBufferInt16 := st.nAsioBufferLen.toNat * st.settings.inputChannels }
  else if flags.2.2.1 then
    { st with
      settings := { st.settings with sampleFormat := .int24 }
      sampleBufferInt24 := st.nAsioBufferLen.toNat * st.settings.channels
      sampleInputBufferInt24 := st.nAsioBufferLen.toNat * st.settings.inputChannels }
  else if flags.1 then
    { st with
      settings := { st.settings with sampleFormat := .int32 }
      sampleBufferInt32 := st.nAsioBufferLen.toNat * st.settings.channels
      sampleInputBufferInt32 := st.nAsioBufferLen.toNat * st.settings.inputChannels }
  else if flags.2.2.2 then
    { st with
      settings := { st.settings with sampleFormat := .float32 }
      sampleBufferFloat := st.nAsioBufferLen.toNat * st.settings.channels
      sampleInputBufferFloat := st.nAsioBufferLen.toNat * st.settings.inputChannels }
  else
    { st with
      settings := { st.settings with sampleFormat := .float64 }
      sampleBufferDouble := st.nAsioBufferLen.toNat * st.settings.channels
      sampleInputBufferDouble := st.nAsioBufferLen.toNat * st.settings.inputChannels }

/-- The state reached by the selection tail of `InternalOpen`, starting from
a freshly `InitMembers`-reset instance with the negotiated buffer length
`len` already stored in `m_nAsioBufferLen`. -/
def openSelectionState (littleEndian : Bool) (st : DeviceState) (len : Int)
    (traits : List SampleTraits) : DeviceState :=
  applySampleFormatSelection littleEndian { initMembers st with nAsioBufferLen := len } traits

/-- Observer: the output working buffer of a given representation
(`m_SampleBuffer{Int16,Int24,Int32,Float,Double}`), by its length. -/
def outWorkBuf (st : DeviceState) : SampleFormat → Nat
  | .int16 => st.sampleBufferInt16
  | .int24 => st.sampleBufferInt24
  | .int32 => st.sampleBufferInt32
  | .float32 => st.sampleBufferFloat
  | .float64 => st.sampleBufferDouble

/-- Observer: the input working buffer of a given representation
(`m_SampleInputBuffer…`), by its length. -/
def inWorkBuf (st : DeviceState) : SampleFormat → Nat
  | .int16 => st.sampleInputBufferInt16
  | .int24 => st.sampleInputBufferInt24
  | .int32 => st.sampleInputBufferInt32
  | .float32 => st.sampleInputBufferFloat
  | .float64 => st.sampleInputBufferDouble

/-! ## Latency -/

/-- `ASIO::Latencies`, in frames. -/
structure Latencies where
  input : Int
  output : Int
deriving DecidableEq

/-- `CASIODevice::UpdateLatency`: queries `getLatencies()` (failure is
absorbed and leaves the zero-initialised `ASIO::Latencies`), then derives
`m_BufferLatency` in seconds: `(Output + bufferLen) / samplerate` when the
reported output latency is at least one buffer length, else the fallback
`2 * bufferLen / samplerate`.  The `double` arithmetic is modelled
exactly over `ℚ`. -/
def updateLatency (st : DeviceState) (latenciesQuery : Option Latencies) : DeviceState :=
  let latencies := latenciesQuery.getD ⟨0, 0⟩
  if st.nAsioBufferLen ≤ latencies.output then
    { st with bufferLatency :=
        ((latencies.output + st.nAsioBufferLen : Int) : ℚ) / (st.settings.samplerate : ℚ) }
  else
    { st with bufferLatency :=
        2 * (st.nAsioBufferLen : ℚ) / (st.settings.samplerate : ℚ) }

/-! ## Stop / close -/

/-- `CASIODevice::InternalStopImpl(force)`.  With `KeepDeviceRunning` set
and no forced stop, only the silence request flag is raised (with a
bounded acknowledgment wait).  Otherwise the device is marked not running,
the driver's `stop()` is invoked (exceptions absorbed, except the
re-raised out-of-memory fault), the total-frames counter is reset, and the
silence flag is cleared. -/
def internalStopImpl (st : DeviceState) (force : Bool) (stopExn : Option AsioExn) :
    Except HandlerOutcome DeviceState :=
  if st.settings.keepDeviceRunning && !force then
    .ok (setRenderSilence st true)
  else
    let st := { st with deviceRunning := false, stopCalls := st.stopCalls + 1 }
    match absorbDriverCall stopExn with
    | .error f => .error f
    | .ok _ => .ok (setRenderSilence { st with totalFramesWritten := 0 } false)

/-- `CASIODevice::InternalClose`: stop the driver if running, clear the
silence request, drop `m_CanOutputReady`, clear the working sample buffers
(the source clears the float32/int16/int24/int32 pairs but not the
float64 pair), clear `m_ChannelInfo`, dispose the driver buffers if
created, clear `m_BufferInfo`, reset the negotiated length and latency,
and close the driver.  Driver-call failures are absorbed, except that the
handler re-raises `bad_alloc` as the out-of-memory fault, which
propagates (modelled by `Except.error`). -/
def internalClose (st : DeviceState) (stopExn disposeExn : Option AsioExn) :
    Except HandlerOutcome DeviceState :=
  let stopStep : Except HandlerOutcome DeviceState :=
    if st.deviceRunning then
      let st := { st with deviceRunning := false, stopCalls := st.stopCalls + 1 }
      match absorbDriverCall stopExn with
      | .error f => .error f
      | .ok _ => .ok { st with totalFramesWritten := 0 }
    else .ok st
  match stopStep with
  | .error f => .error f
  | .ok st =>
    let st := setRenderSilence st false
    let st :=
      { st with
        canOutputReady := false
        sampleBufferFloat := 0
        sampleBufferInt16 := 0
        sampleBufferInt24 := 0
        sampleBufferInt32 := 0
        sampleInputBufferFloat := 0
        sampleInputBufferInt16 := 0
        sampleInputBufferInt24 := 0
        sampleInputBufferInt32 := 0
        channelInfoLen := 0 }
    let disposeStep : Except HandlerOutcome DeviceState :=
      if st.buffersCreated then
        match absorbDriverCall disposeExn with
        | .error f => .error f
        | .ok _ => .ok { st with buffersCreated := false }
      else .ok st
    match disposeStep with
    | .error f => .error f
    | .ok st =>
      .ok (closeDriver { st with bufferInfoLen := 0, nAsioBufferLen := 0, bufferLatency := 0 })

/-! ## Realtime buffer-switch path -/

/-- `CASIODevice::FillAsioBuffer(useSource)`, restricted to its effects on
the modelled state: the input/output conversions copy sample data without
changing any buffer length, silence rendering zero-fills the output
working buffer, and when `m_CanOutputReady` is set, `outputReady()` is
called under the fault-containment wrapper. -/
def fillAsioBuffer (st : DeviceState) (outputReadyExn : Option AsioExn) :
    Except HandlerOutcome DeviceState :=
  if st.canOutputReady then
    match absorbDriverCall outputReadyExn with
    | .error f => .error f
    | .ok _ => .ok st
  else .ok st

/-- `CASIODevice::RealtimeBufferSwitchImpl(bufferIndex)`: records the active
buffer half, latches the silence request into `m_RenderingSilence`,
either advances the stream-position offset by one buffer length and
renders silence or performs the locked source exchange, then advances the
`uint64` total-frames counter by one buffer length (mod `2 ^ 64`). -/
def realtimeBufferSwitchImpl (st : DeviceState) (bufferIndex : Nat)
    (outputReadyExn : Option AsioExn) : Except HandlerOutcome DeviceState :=
  let st := { st with bufferIndex := bufferIndex }
  let rendersilence := st.renderSilence
  let st := { st with renderingSilence := rendersilence }
  let filled :=
    if rendersilence then
      fillAsioBuffer
        { st with streamPositionOffset :=
            (st.streamPositionOffset + st.nAsioBufferLen.toNat) % 2 ^ 64 }
        outputReadyExn
    else
      -- SourceFillAudioBufferLocked → InternalFillAudioBuffer → FillAsioBuffer(true)
      fillAsioBuffer st outputReadyExn
  match filled with
  | .error f => .error f
  | .ok st =>
    .ok { st with totalFramesWritten :=
            (st.totalFramesWritten + st.nAsioBufferLen.toNat) % 2 ^ 64 }

/-! ## Sample-rate change notification -/

/-- `AsioSampleRateTolerance = 0.05` (the source's `double` literal,
modelled exactly). -/
def asioSampleRateTolerance : ℚ := 5 / 100

/-- Round half away from zero, as `mpt::round` / `std::round` does. -/
def roundHalfAwayFromZero (q : ℚ) : Int :=
  if 0 ≤ q then ⌊q + 1 / 2⌋ else ⌈q - 1 / 2⌉

/-- `mpt::saturate_round<uint32>`: round half away from zero and saturate
into the `uint32` range. -/
def saturateRoundUint32 (q : ℚ) : Nat :=
  (Min.min (Max.max (roundHalfAwayFromZero q) 0) (2 ^ 32 - 1)).toNat

/-- `CASIODevice::RealtimeSampleRateDidChange(sRate)`: a rate that rounds to
the configured samplerate is ignored entirely; otherwise the
`SampleRateChange` feature flag is recorded and, when the new rate is
outside the ±5% tolerance band around the configured rate, `RequestClose`
is issued. -/
def realtimeSampleRateDidChange (st : DeviceState) (sRate : ℚ) : DeviceState :=
  if saturateRoundUint32 sRate = st.settings.samplerate then
    -- not different, ignore it
    st
  else
    let st := { st with usedFeatures := { st.usedFeatures with sampleRateChange := true } }
    if (st.settings.samplerate : ℚ) * (1 - asioSampleRateTolerance) ≤ sRate ∧
        sRate ≤ (st.settings.samplerate : ℚ) * (1 + asioSampleRateTolerance) then
      -- ignore slight differences from an unstable external clock source
      st
    else
      -- play safe and close the device
      { st with requestCloseCalled := true }

/-! ## Dynamic capability query -/

/-- `SoundDevice::DynamicCaps`, restricted to the fields
`GetDeviceDynamicCaps` fills. -/
structure DynamicCaps where
  currentSampleRate : Option Nat
  supportedSampleRates : List Nat
  supportedExclusiveSampleRates : List Nat
  channelNames : List String
  inputSourceNames : List (Nat × String)
deriving DecidableEq

def emptyDynamicCaps : DynamicCaps :=
  ⟨none, [], [], [], []⟩

/-- The driver's answers to the control queries `GetDeviceDynamicCaps`
issues; `none` models a call that raised a (non-out-of-memory) exception,
which the fault-containment wrapper absorbs. -/
structure DriverQueries where
  getSampleRateQ : Option ℚ
  canSampleRateQ : Nat → Option Bool
  getChannelsQ : Option (Int × Int)
  channelNameQ : Bool → Nat → Option String

/-- `CASIODevice::OpenDriver`: a no-op when already open; otherwise the
driver either comes up or every failure leaves the handle closed. -/
def openDriver (st : DeviceState) (succeeds : Bool) : DeviceState :=
  if st.driverOpen then st
  else if succeeds then { st with driverOpen := true }
  else st

/-- The destructor half of `TemporaryASIODriverOpener`: close the driver
again only if this opener had to open it. -/
def temporaryOpenerRelease (wasOpen : Bool) (st : DeviceState) : DeviceState :=
  if wasOpen then st else closeDriver st

/-- `CASIODevice::GetDeviceDynamicCaps`: temporarily open the driver; on
failure flag the device unavailable and return empty capabilities; else
fill current/supported sample rates and channel names, absorbing each
query failure individually; the temporary opener restores the prior
driver-open state on every exit path. -/
def getDeviceDynamicCaps (st : DeviceState) (openSucceeds : Bool) (q : DriverQueries)
    (baseSampleRates : List Nat) : DeviceState × DynamicCaps :=
  let wasOpen := st.driverOpen
  let st := if wasOpen then st else openDriver st openSucceeds
  if st.driverOpen = false then
    (temporaryOpenerRelease wasOpen { st with deviceUnavailableOnOpen := true },
      emptyDynamicCaps)
  else
    let caps := emptyDynamicCaps
    let caps :=
      match q.getSampleRateQ with
      | some samplerate =>
        if 0 < samplerate then
          { caps with currentSampleRate := some (saturateRoundUint32 samplerate) }
        else caps
      | none => caps
    let supported := baseSampleRates.filter (fun r => (q.canSampleRateQ r).getD false)
    let caps :=
      { caps with supportedSampleRates := supported, supportedExclusiveSampleRates := supported }
    match q.getChannelsQ with
    | none => (temporaryOpenerRelease wasOpen st, caps)
    | some channels =>
      let st :=
        if ¬(0 < channels.1 ∨ 0 < channels.2) then
          { st with deviceUnavailableOnOpen := true }
        else st
      let caps :=
        { caps with
          channelNames :=
            (List.range channels.2.toNat).map
              (fun i => (q.channelNameQ false i).getD (toString i))
          inputSourceNames :=
            (List.range channels.1.toNat).map
              (fun i => (i, (q.channelNameQ true i).getD (toString i))) }
      (temporaryOpenerRelease wasOpen st, caps)

/-! ## Negotiation lemmas (claims C1, C7) -/

theorem clampLong_range (v lo hi : Int) (h : lo ≤ hi) :
    lo ≤ clampLong v lo hi ∧ clampLong v lo hi ≤ hi := by
  unfold clampLong
  split_ifs <;> omega

theorem pow2ScanFromOneGo_range (fuel : Nat) (minS maxS bufTarget : Int) :
    ∀ bufSize cur, minS ≤ cur → cur ≤ maxS →
      minS ≤ pow2ScanFromOneGo fuel minS maxS bufTarget bufSize cur ∧
      pow2ScanFromOneGo fuel minS maxS bufTarget bufSize cur ≤ maxS := by
  induction fuel with
  | zero =>
    intro bufSize cur h1 h2
    exact ⟨h1, h2⟩
  | succ n ih =>
    intro bufSize cur h1 h2
    simp only [pow2ScanFromOneGo]
    split
    · rename_i hguard
      by_cases hmin : minS ≤ bufSize
      · rw [if_pos hmin]
        exact ih _ _ hmin hguard.1
      · rw [if_neg hmin]
        exact ih _ _ h1 h2
    · exact ⟨h1, h2⟩

theorem pow2ScanFromMinGo_range (fuel : Nat) (minS maxS bufTarget : Int) :
    ∀ bufSize cur, 0 ≤ bufSize → minS ≤ bufSize → minS ≤ cur → cur ≤ maxS →
      minS ≤ pow2ScanFromMinGo fuel maxS bufTarget bufSize cur ∧
      pow2ScanFromMinGo fuel maxS bufTarget bufSize cur ≤ maxS := by
  induction fuel with
  | zero =>
    intro bufSize cur _ _ h1 h2
    exact ⟨h1, h2⟩
  | succ n ih =>
    intro bufSize cur h0 hb h1 h2
    simp only [pow2ScanFromMinGo]
    split
    · rename_i hguard
      exact ih _ _ (by omega) (by omega) hb hguard.1
    · exact ⟨h1, h2⟩

theorem granScanGo_range (fuel : Nat) (minS maxS bufTarget gran : Int) (hg : 0 ≤ gran) :
    ∀ bufSize cur, minS ≤ bufSize → minS ≤ cur → cur ≤ maxS →
      minS ≤ granScanGo fuel maxS bufTarget gran bufSize cur ∧
      granScanGo fuel maxS bufTarget gran bufSize cur ≤ maxS := by
  induction fuel with
  | zero =>
    intro bufSize cur _ h1 h2
    exact ⟨h1, h2⟩
  | succ n ih =>
    intro bufSize cur hb h1 h2
    simp only [granScanGo]
    split
    · rename_i hguard
      exact ih _ _ (by omega) hb hguard.1
    · exact ⟨h1, h2⟩

/-- Claim C1, counterexample: a fixed-size driver (granularity 0) with a
positive `preferred` outside `[min, max]` makes `InternalOpen` adopt the
out-of-range `preferred`: with min 64, max 512, preferred 1024 and target
256, the negotiated length is 1024, not within `[64, 512]`, although
`min ≤ max` and `min > 0`. -/
theorem negotiate_gran0_escapes_range :
    (0 : Int) < 64 ∧ (64 : Int) ≤ 512 ∧
    negotiateBufferLen 256 ⟨64, 512, 1024, 0⟩ = 1024 ∧
    ¬(64 ≤ negotiateBufferLen 256 ⟨64, 512, 1024, 0⟩ ∧
      negotiateBufferLen 256 ⟨64, 512, 1024, 0⟩ ≤ 512) := by
  decide

/-- Claim C1 (amended): for driver constraints with `min > 0` and
`min ≤ max`, the negotiated buffer length lies within `[min, max]` except
in the fixed-size case (`granularity = 0` with `preferred > 0`), where it
equals `preferred` (which may lie outside the range); for degenerate
constraints (`min ≤ 0`, `max ≤ 0`, or `min > max`) it equals `preferred`
when positive and otherwise the unmodified target. -/
theorem negotiate_range_amended (target : Int) (b : BufferSizes) :
    (0 < b.min → b.min ≤ b.max →
      (if b.granularity = 0 ∧ 0 < b.preferred
        then negotiateBufferLen target b = b.preferred
        else b.min ≤ negotiateBufferLen target b ∧ negotiateBufferLen target b ≤ b.max)) ∧
    ((b.min ≤ 0 ∨ b.max ≤ 0 ∨ b.max < b.min) →
      negotiateBufferLen target b = if 0 < b.preferred then b.preferred else target) := by
  constructor
  · intro hmin hle
    have hnd : ¬(b.min ≤ 0 ∨ b.max ≤ 0 ∨ b.max < b.min) := by omega
    unfold negotiateBufferLen
    rw [if_neg hnd]
    by_cases hg1 : b.granularity < -1
    · rw [if_pos hg1, if_neg (fun h => by omega : ¬(b.granularity = 0 ∧ 0 < b.preferred))]
      exact clampLong_range target b.min b.max hle
    · rw [if_neg hg1]
      by_cases hg2 : b.granularity = -1 ∧
          (intWeightIsOne b.min = false ∨ intWeightIsOne b.max = false)
      · rw [if_pos hg2, if_neg (fun h => by omega : ¬(b.granularity = 0 ∧ 0 < b.preferred))]
        exact pow2ScanFromOneGo_range _ _ _ _ _ _
          (clampLong_range target b.min b.max hle).1 (clampLong_range target b.min b.max hle).2
      · rw [if_neg hg2]
        by_cases hg3 : b.granularity = -1
        · rw [if_pos hg3, if_neg (fun h => by omega : ¬(b.granularity = 0 ∧ 0 < b.preferred))]
          exact pow2ScanFromMinGo_range _ b.min _ _ _ _ (by omega) le_rfl
            (clampLong_range target b.min b.max hle).1 (clampLong_range target b.min b.max hle).2
        · rw [if_neg hg3]
          by_cases hg4 : 0 < b.granularity
          · rw [if_pos hg4, if_neg (fun h => by omega : ¬(b.granularity = 0 ∧ 0 < b.preferred))]
            exact granScanGo_range _ b.min _ _ _ (by omega) _ _ le_rfl
              (clampLong_range target b.min b.max hle).1 (clampLong_range target b.min b.max hle).2
          · rw [if_neg hg4]
            by_cases hp : 0 < b.preferred
            · rw [if_pos hp, if_pos ⟨by omega, hp⟩]
            · rw [if_neg hp, if_neg (fun h => by omega : ¬(b.granularity = 0 ∧ 0 < b.preferred))]
              by_cases ht : b.max ≤ target
              · rw [if_pos ht]
                omega
              · rw [if_neg ht]
                omega
  · intro h
    unfold negotiateBufferLen
    rw [if_pos h]

/-- Claim C1 witness: the amended theorem at a concrete step-granularity
driver (min 100, max 500, granularity 50, target 330). -/
theorem negotiate_range_amended_witness :
    (100 : Int) ≤ negotiateBufferLen 330 ⟨100, 500, 0, 50⟩ ∧
    negotiateBufferLen 330 ⟨100, 500, 0, 50⟩ ≤ 500 := by
  have h := (negotiate_range_amended 330 ⟨100, 500, 0, 50⟩).1 (by decide) (by decide)
  rw [if_neg (by decide : ¬((50 : Int) = 0 ∧ (0 : Int) < 0))] at h
  exact h

theorem pow2ScanFromMinGo_succ (fuel : Nat) (maxS bufTarget bufSize cur : Int) :
    pow2ScanFromMinGo (fuel + 1) maxS bufTarget bufSize cur =
      if bufSize ≤ maxS ∧ bufSize ≤ bufTarget then
        pow2ScanFromMinGo fuel maxS bufTarget (2 * bufSize) bufSize
      else cur := rfl

/-- With the sane power-of-two bounds min 64 / max 1024, negotiation takes
the clean power-of-two branch and runs the doubling scan from 64 on the
clamped target. -/
theorem negotiate_pow2_64_1024 (target pref : Int) :
    negotiateBufferLen target ⟨64, 1024, pref, -1⟩ =
      pow2ScanFromMinGo 961 1024 (clampLong target 64 1024) 64 (clampLong target 64 1024) := by
  unfold negotiateBufferLen
  rw [if_neg (by decide : ¬((64 : Int) ≤ 0 ∨ (1024 : Int) ≤ 0 ∨ (1024 : Int) < 64)),
    if_neg (by decide : ¬((-1 : Int) < -1)),
    if_neg (by decide : ¬((-1 : Int) = -1 ∧
      (intWeightIsOne 64 = false ∨ intWeightIsOne 1024 = false))),
    if_pos (rfl : (-1 : Int) = -1)]
  rfl

/-- Evaluation of the doubling scan from 64 with max 1024 on an arbitrary
in-range target: the result is the largest element of
64, 128, 256, 512, 1024 not exceeding the target. -/
theorem pow2ScanFromMinGo_64_1024_eval (t : Int) (h1 : 64 ≤ t) (h2 : t ≤ 1024) :
    pow2ScanFromMinGo 961 1024 t 64 t =
      if t < 128 then 64 else if t < 256 then 128 else if t < 512 then 256
      else if t < 1024 then 512 else 1024 := by
  rw [show (961 : Nat) = 960 + 1 from rfl, pow2ScanFromMinGo_succ, if_pos (by omega)]
  rw [show (960 : Nat) = 959 + 1 from rfl, pow2ScanFromMinGo_succ]
  by_cases c128 : t < 128
  · rw [if_neg (by omega), if_pos c128]
  · rw [if_pos (by omega)]
    rw [show (959 : Nat) = 958 + 1 from rfl, pow2ScanFromMinGo_succ]
    by_cases c256 : t < 256
    · rw [if_neg (by omega), if_neg (by omega), if_pos c256]
      norm_num
    · rw [if_pos (by omega)]
      rw [show (958 : Nat) = 957 + 1 from rfl, pow2ScanFromMinGo_succ]
      by_cases c512 : t < 512
      · rw [if_neg (by omega), if_neg (by omega), if_neg (by omega), if_pos c512]
        norm_num
      · rw [if_pos (by omega)]
        rw [show (957 : Nat) = 956 + 1 from rfl, pow2ScanFromMinGo_succ]
        by_cases c1024 : t < 1024
        · rw [if_neg (by omega), if_neg (by omega), if_neg (by omega), if_neg (by omega),
            if_pos c1024]
          norm_num
        · rw [if_pos (by omega)]
          rw [show (956 : Nat) = 955 + 1 from rfl, pow2ScanFromMinGo_succ]
          rw [if_neg (by omega), if_neg (by omega), if_neg (by omega), if_neg (by omega),
            if_neg (by omega)]
          norm_num

/-- An integer power of two below `2 ^ (n + 1)` is at most `2 ^ n`. -/
theorem int_pow2_le_of_lt (k n : Nat) (s : Int) (hs : s = 2 ^ k) (h : s < 2 ^ (n + 1)) :
    s ≤ 2 ^ n := by
  subst hs
  have hk : k < n + 1 := by
    by_contra hcon
    exact absurd ((pow_le_pow_right₀ (by norm_num : (1 : Int) ≤ 2) (by omega : n + 1 ≤ k)))
      (not_le.mpr h)
  exact pow_le_pow_right₀ (by norm_num : (1 : Int) ≤ 2) (by omega)

/-- Claim C7: with power-of-two granularity (-1) and the sane power-of-two
bounds min 64 / max 1024, negotiation yields the largest power of two in
`[64, 1024]` not exceeding the clamped target; in particular a target of
500 yields 256 and a target of 2000 yields 1024. -/
theorem pow2_negotiation_largest (target pref : Int) :
    (∃ k : Nat, negotiateBufferLen target ⟨64, 1024, pref, -1⟩ = 2 ^ k) ∧
    64 ≤ negotiateBufferLen target ⟨64, 1024, pref, -1⟩ ∧
    negotiateBufferLen target ⟨64, 1024, pref, -1⟩ ≤ 1024 ∧
    negotiateBufferLen target ⟨64, 1024, pref, -1⟩ ≤ clampLong target 64 1024 ∧
    (∀ (s : Int) (k : Nat), s = 2 ^ k → 64 ≤ s → s ≤ 1024 →
      s ≤ clampLong target 64 1024 → s ≤ negotiateBufferLen target ⟨64, 1024, pref, -1⟩) ∧
    negotiateBufferLen 500 ⟨64, 1024, pref, -1⟩ = 256 ∧
    negotiateBufferLen 2000 ⟨64, 1024, pref, -1⟩ = 1024 := by
  have hc := clampLong_range target 64 1024 (by decide)
  have h500 : negotiateBufferLen 500 ⟨64, 1024, pref, -1⟩ = 256 := by
    rw [negotiate_pow2_64_1024]
    decide
  have h2000 : negotiateBufferLen 2000 ⟨64, 1024, pref, -1⟩ = 1024 := by
    rw [negotiate_pow2_64_1024]
    decide
  rw [negotiate_pow2_64_1024, pow2ScanFromMinGo_64_1024_eval _ hc.1 hc.2]
  refine ⟨?_, ?_, ?_, ?_, ?_, h500, h2000⟩
  · split_ifs
    · exact ⟨6, by norm_num⟩
    · exact ⟨7, by norm_num⟩
    · exact ⟨8, by norm_num⟩
    · exact ⟨9, by norm_num⟩
    · exact ⟨10, by norm_num⟩
  · split_ifs <;> omega
  · split_ifs <;> omega
  · split_ifs <;> omega
  · intro s k hs h64 h1024 hsc
    split_ifs with i1 i2 i3 i4
    · exact int_pow2_le_of_lt k 6 s hs (by omega)
    · exact int_pow2_le_of_lt k 7 s hs (by omega)
    · exact int_pow2_le_of_lt k 8 s hs (by omega)
    · exact int_pow2_le_of_lt k 9 s hs (by omega)
    · omega

/-- Claim C7 witness: the main theorem instantiated at target 500,
preferred 256, projecting the concrete negotiated lengths. -/
theorem pow2_negotiation_largest_witness :
    negotiateBufferLen 500 ⟨64, 1024, 256, -1⟩ = 256 ∧
    negotiateBufferLen 2000 ⟨64, 1024, 256, -1⟩ = 1024 := by
  have h := pow2_negotiation_largest 500 256
  exact ⟨h.2.2.2.2.2.1, h.2.2.2.2.2.2⟩

/-! ## Fault containment lemmas (claims C2, C5, C6, C8) -/

theorem absorbDriverCall_ok (exn : Option AsioExn) (h : exn ≠ some AsioExn.badAlloc) :
    absorbDriverCall exn = .ok () := by
  rcases exn with _ | e
  · rfl
  · cases e
    case badAlloc => exact absurd rfl h
    all_goals rfl

theorem fillAsioBuffer_ok (st : DeviceState) (exn : Option AsioExn)
    (h : exn ≠ some AsioExn.badAlloc) : fillAsioBuffer st exn = .ok st := by
  unfold fillAsioBuffer
  split
  · rw [absorbDriverCall_ok exn h]
  · rfl

theorem absorbDriverCall_error (exn : Option AsioExn) (f : HandlerOutcome)
    (h : absorbDriverCall exn = .error f) : f = HandlerOutcome.raisedOutOfMemory := by
  rcases exn with _ | e
  · simp [absorbDriverCall] at h
  · cases e <;> simp [absorbDriverCall, exceptionHandler] at h
    exact h.symm

/-- A device state as reached by a successful `InternalOpen` that selected
the 64-bit-float unified representation: stereo output and input at
44100 Hz, negotiated buffer length 512, so the float64 working buffers
hold 512 × 2 = 1024 samples each, and the device has been started. -/
def openFloat64Example : DeviceState where
  settings := ⟨44100, 2, 2, true, .float64⟩
  driverOpen := true
  deviceUnavailableOnOpen := false
  bufferLatency := 1536 / 44100
  nAsioBufferLen := 512
  bufferInfoLen := 4
  buffersCreated := true
  channelInfoLen := 4
  sampleBufferDouble := 1024
  sampleBufferFloat := 0
  sampleBufferInt16 := 0
  sampleBufferInt24 := 0
  sampleBufferInt32 := 0
  sampleInputBufferDouble := 1024
  sampleInputBufferFloat := 0
  sampleInputBufferInt16 := 0
  sampleInputBufferInt24 := 0
  sampleInputBufferInt32 := 0
  canOutputReady := true
  deviceRunning := true
  totalFramesWritten := 0
  deferredProcessing := false
  bufferIndex := 0
  renderSilence := false
  renderingSilence := false
  streamPositionOffset := 512
  usedFeatures := AsioFeatures.none
  stopCalls := 0
  startCalls := 1
  requestCloseCalled := false

/-- Claim C2, failing input: closing a session that was opened with the
64-bit-float unified representation leaves the instance closed and clears
the channel lists and the four other representation buffers, but the
float64 output and input working buffers keep their 1024 elements —
`InternalClose` never clears `m_SampleBufferDouble` or
`m_SampleInputBufferDouble`. -/
theorem internalClose_keeps_double_buffer :
    (internalClose openFloat64Example none none).map
        (fun st => (st.driverOpen, st.deviceRunning, st.channelInfoLen, st.bufferInfoLen,
          st.sampleBufferFloat, st.sampleBufferInt16, st.sampleBufferInt24,
          st.sampleBufferInt32, st.sampleBufferDouble, st.sampleInputBufferDouble)) =
      .ok (false, false, 0, 0, 0, 0, 0, 0, 1024, 1024) := by
  rfl

/-- Claim C5: with `KeepDeviceRunning` set and an unforced stop,
`InternalStopImpl` only raises the render-silence request — the state is
otherwise untouched, so the driver stop/start call counts and the running
flag are unchanged; with keep-alive off or a forced stop, it invokes the
driver's `stop()`, zeroes the total-frames counter and clears the silence
flag. -/
theorem internalStop_keepalive_behavior (st : DeviceState) (force : Bool)
    (stopExn : Option AsioExn) :
    (st.settings.keepDeviceRunning = true → force = false →
      internalStopImpl st force stopExn = .ok { st with renderSilence := true }) ∧
    ((st.settings.keepDeviceRunning = false ∨ force = true) →
      stopExn ≠ some AsioExn.badAlloc →
      internalStopImpl st force stopExn =
        .ok { st with
          deviceRunning := false
          stopCalls := st.stopCalls + 1
          totalFramesWritten := 0
          renderSilence := false }) := by
  constructor
  · intro hk hf
    subst hf
    unfold internalStopImpl
    rw [if_pos (by rw [hk]; rfl)]
    rfl
  · intro hor hexn
    have hcond : (st.settings.keepDeviceRunning && !force) = false := by
      rcases hor with h | h <;> simp [h]
    unfold internalStopImpl
    rw [hcond, if_neg (by simp), absorbDriverCall_ok stopExn hexn]
    rfl

/-- Claim C5 witness: the keep-alive branch at the concrete opened state
(keep-alive on, unforced stop): only the silence flag changes. -/
theorem internalStop_keepalive_behavior_witness :
    internalStopImpl openFloat64Example false none =
      .ok { openFloat64Example with renderSilence := true } :=
  (internalStop_keepalive_behavior openFloat64Example false none).1 rfl rfl

/-- Claim C6, counterexample: a `bad_alloc` raised by the driver's `stop()`
during `InternalClose` is re-raised by the fault-containment wrapper as
the canonical out-of-memory fault and propagates out of the close path,
so "no exception propagates out of Close" fails as stated. -/
theorem close_propagates_oom :
    internalClose openFloat64Example (some AsioExn.badAlloc) none =
      .error HandlerOutcome.raisedOutOfMemory := by
  rfl

/-- Claim C6 (amended): the wrapper re-raises `bad_alloc` as the canonical
out-of-memory fault and absorbs every other exception kind; consequently
no exception other than the re-raised out-of-memory fault propagates out
of `InternalClose` or out of the realtime buffer-switch path, and any
fault that does propagate is the out-of-memory fault. -/
theorem exception_containment_amended :
    exceptionHandler AsioExn.badAlloc = HandlerOutcome.raisedOutOfMemory ∧
    (∀ e : AsioExn, e ≠ AsioExn.badAlloc →
      exceptionHandler e ≠ HandlerOutcome.raisedOutOfMemory) ∧
    (∀ (st : DeviceState) (stopExn disposeExn : Option AsioExn),
      stopExn ≠ some AsioExn.badAlloc → disposeExn ≠ some AsioExn.badAlloc →
      ∃ st2, internalClose st stopExn disposeExn = .ok st2) ∧
    (∀ (st : DeviceState) (idx : Nat) (outputReadyExn : Option AsioExn),
      outputReadyExn ≠ some AsioExn.badAlloc →
      ∃ st2, realtimeBufferSwitchImpl st idx outputReadyExn = .ok st2) ∧
    (∀ (st : DeviceState) (stopExn disposeExn : Option AsioExn) (f : HandlerOutcome),
      internalClose st stopExn disposeExn = .error f → f = HandlerOutcome.raisedOutOfMemory) := by
  refine ⟨rfl, ?_, ?_, ?_, ?_⟩
  · intro e he
    cases e
    case badAlloc => exact absurd rfl he
    all_goals simp [exceptionHandler]
  · intro st stopExn disposeExn h1 h2
    unfold internalClose
    by_cases hrun : st.deviceRunning
    · rw [if_pos hrun, absorbDriverCall_ok stopExn h1]
      by_cases hbuf : st.buffersCreated <;>
        simp [hbuf, absorbDriverCall_ok disposeExn h2, setRenderSilence]
    · rw [if_neg hrun]
      by_cases hbuf : st.buffersCreated <;>
        simp [hbuf, absorbDriverCall_ok disposeExn h2, setRenderSilence]
  · intro st idx exn hexn
    unfold realtimeBufferSwitchImpl
    by_cases hrs : st.renderSilence = true <;>
      simp [hrs, fillAsioBuffer_ok _ exn hexn]
  · intro st stopExn disposeExn f herr
    unfold internalClose at herr
    by_cases hrun : st.deviceRunning <;>
      by_cases hbuf : st.buffersCreated <;>
      cases hstop : absorbDriverCall stopExn <;>
      cases hdisp : absorbDriverCall disposeExn <;>
      simp [hrun, hbuf, hstop, hdisp, setRenderSilence, closeDriver] at herr <;>
      rw [← herr]
    all_goals first
      | exact absorbDriverCall_error stopExn _ hstop
      | exact absorbDriverCall_error disposeExn _ hdisp

/-- Claim C6 witness: the amended containment theorem at the concrete
opened state with no driver exception: close returns normally. -/
theorem exception_containment_amended_witness :
    ∃ st2, internalClose openFloat64Example none none = .ok st2 :=
  exception_containment_amended.2.2.1 openFloat64Example none none (by simp) (by simp)

/-- Claim C8: every realtime buffer-switch callback — silent or not —
advances `m_TotalFramesWritten` by exactly one buffer length and never
decreases it, as long as the `uint64` counter does not wrap. -/
theorem totalFrames_monotone (st : DeviceState) (idx : Nat)
    (h : st.totalFramesWritten + st.nAsioBufferLen.toNat < 2 ^ 64) :
    ∃ st2, realtimeBufferSwitchImpl st idx none = .ok st2 ∧
      st2.totalFramesWritten = st.totalFramesWritten + st.nAsioBufferLen.toNat ∧
      st.totalFramesWritten ≤ st2.totalFramesWritten := by
  have hfok : ∀ s : DeviceState, fillAsioBuffer s none = .ok s := fun s =>
    fillAsioBuffer_ok s none (by simp)
  unfold realtimeBufferSwitchImpl
  by_cases hrs : st.renderSilence = true <;> simp [hrs, hfok] <;> omega

/-- Claim C8 witness: one callback at the concrete opened state advances
the counter from 0 by the buffer length 512. -/
theorem totalFrames_monotone_witness :
    ∃ st2, realtimeBufferSwitchImpl openFloat64Example 1 none = .ok st2 ∧
      st2.totalFramesWritten =
        openFloat64Example.totalFramesWritten + openFloat64Example.nAsioBufferLen.toNat ∧
      openFloat64Example.totalFramesWritten ≤ st2.totalFramesWritten :=
  totalFrames_monotone openFloat64Example 1 (by decide)

/-! ## Latency formula (claim C4) -/

/-- Claim C4: when the driver reports an output latency of `L` frames and
the negotiated buffer length is `B`, `UpdateLatency` sets the effective
latency to `(L + B) / samplerate` seconds when `L ≥ B` and to
`2 * B / samplerate` seconds when `L < B`; at 44100 Hz with `B = 512`,
`L = 1024` gives `(1024 + 512) / 44100` and `L = 100` gives
`2 * 512 / 44100`. -/
theorem updateLatency_formula (st : DeviceState) (i L : Int) :
    ((updateLatency st (some ⟨i, L⟩)).bufferLatency =
      if st.nAsioBufferLen ≤ L
        then ((L + st.nAsioBufferLen : Int) : ℚ) / (st.settings.samplerate : ℚ)
        else 2 * (st.nAsioBufferLen : ℚ) / (st.settings.samplerate : ℚ)) ∧
    (∀ st44 : DeviceState, st44.settings.samplerate = 44100 → st44.nAsioBufferLen = 512 →
      (updateLatency st44 (some ⟨0, 1024⟩)).bufferLatency = (1024 + 512 : ℚ) / 44100 ∧
      (updateLatency st44 (some ⟨0, 100⟩)).bufferLatency = 2 * 512 / 44100) := by
  constructor
  · unfold updateLatency
    simp only [Option.getD_some]
    split_ifs with hcmp <;> rfl
  · intro st44 hsr hlen
    unfold updateLatency
    simp only [Option.getD_some]
    constructor
    · rw [if_pos (by simp [hlen] : st44.nAsioBufferLen ≤ (Latencies.mk 0 1024).output)]
      simp [hsr, hlen]
      norm_num
    · rw [if_neg (by simp [hlen] : ¬st44.nAsioBufferLen ≤ (Latencies.mk 0 100).output)]
      simp [hsr, hlen]

/-- Claim C4 witness: the concrete instances at the opened example state
(samplerate 44100, buffer length 512). -/
theorem updateLatency_formula_witness :
    (updateLatency openFloat64Example (some ⟨0, 1024⟩)).bufferLatency = (1024 + 512 : ℚ) / 44100 ∧
    (updateLatency openFloat64Example (some ⟨0, 100⟩)).bufferLatency = 2 * 512 / 44100 :=
  (updateLatency_formula openFloat64Example 0 1024).2 openFloat64Example rfl rfl

/-! ## Sample-rate change notification (claim C10) -/

/-- Claim C10: a driver-reported sample rate that rounds to the configured
rate changes nothing and records no feature flag; a differing rate within
the ±5% tolerance records the `SampleRateChange` feature flag and nothing
else (the device keeps running); a differing rate outside the tolerance
records the flag and requests that the device be closed. -/
theorem sampleRateChange_policy (st : DeviceState) (sRate : ℚ) :
    (saturateRoundUint32 sRate = st.settings.samplerate →
      realtimeSampleRateDidChange st sRate = st) ∧
    (saturateRoundUint32 sRate ≠ st.settings.samplerate →
      (st.settings.samplerate : ℚ) * (1 - asioSampleRateTolerance) ≤ sRate →
      sRate ≤ (st.settings.samplerate : ℚ) * (1 + asioSampleRateTolerance) →
      realtimeSampleRateDidChange st sRate =
        { st with usedFeatures := { st.usedFeatures with sampleRateChange := true } }) ∧
    (saturateRoundUint32 sRate ≠ st.settings.samplerate →
      ¬((st.settings.samplerate : ℚ) * (1 - asioSampleRateTolerance) ≤ sRate ∧
        sRate ≤ (st.settings.samplerate : ℚ) * (1 + asioSampleRateTolerance)) →
      realtimeSampleRateDidChange st sRate =
        { st with
          usedFeatures := { st.usedFeatures with sampleRateChange := true }
          requestCloseCalled := true }) := by
  refine ⟨?_, ?_, ?_⟩
  · intro heq
    unfold realtimeSampleRateDidChange
    rw [if_pos heq]
  · intro hne h1 h2
    unfold realtimeSampleRateDidChange
    rw [if_neg hne, if_pos ⟨h1, h2⟩]
  · intro hne hout
    unfold realtimeSampleRateDidChange
    rw [if_neg hne, if_neg hout]

/-- Claim C10 witness: at the configured rate 44100, a reported rate of
44200 (different, but within ±5%) records only the `SampleRateChange`
flag. -/
theorem sampleRateChange_policy_witness :
    realtimeSampleRateDidChange openFloat64Example 44200 =
      { openFloat64Example with
        usedFeatures := { openFloat64Example.usedFeatures with sampleRateChange := true } } :=
  (sampleRateChange_policy openFloat64Example 44200).2.1
    (by
      have : saturateRoundUint32 44200 = 44200 := by
        norm_num [saturateRoundUint32, roundHalfAwayFromZero]
        rfl
      rw [this]
      norm_num [openFloat64Example])
    (by norm_num [asioSampleRateTolerance, openFloat64Example])
    (by norm_num [asioSampleRateTolerance, openFloat64Example])

/-! ## Dynamic capability query (claim C9) -/

/-- Claim C9: `GetDeviceDynamicCaps` always restores the prior driver-open
state on return (a driver opened only for the query is closed again, an
already-open driver stays open), and when the temporary open fails it
returns the empty capability result and flags the device unavailable. -/
theorem dynamicCaps_restore_and_degrade (st : DeviceState) (openS : Bool)
    (q : DriverQueries) (rates : List Nat) :
    ((getDeviceDynamicCaps st openS q rates).1.driverOpen = st.driverOpen) ∧
    (st.driverOpen = false → openS = false →
      (getDeviceDynamicCaps st openS q rates).2 = emptyDynamicCaps ∧
      (getDeviceDynamicCaps st openS q rates).1.deviceUnavailableOnOpen = true) := by
  constructor
  · by_cases hopen : st.driverOpen = true
    · rcases hch : q.getChannelsQ with _ | chs
      · simp [getDeviceDynamicCaps, hopen, hch, temporaryOpenerRelease, closeDriver]
      · by_cases hpos : 0 < chs.1 ∨ 0 < chs.2 <;>
          simp [getDeviceDynamicCaps, hopen, hch, hpos, temporaryOpenerRelease, closeDriver]
    · have hopen2 : st.driverOpen = false := by simpa using hopen
      cases openS
      · simp [getDeviceDynamicCaps, hopen2, openDriver, temporaryOpenerRelease, closeDriver]
      · rcases hch : q.getChannelsQ with _ | chs
        · simp [getDeviceDynamicCaps, hopen2, hch, openDriver, temporaryOpenerRelease,
            closeDriver]
        · by_cases hpos : 0 < chs.1 ∨ 0 < chs.2 <;>
            simp [getDeviceDynamicCaps, hopen2, hch, hpos, openDriver, temporaryOpenerRelease,
              closeDriver]
  · intro h1 h2
    subst h2
    constructor <;>
      simp [getDeviceDynamicCaps, h1, openDriver, temporaryOpenerRelease, closeDriver]

/-- Driver answers where every control query raises an absorbed fault. -/
def trivialQueries : DriverQueries :=
  ⟨none, fun _ => none, none, fun _ _ => none⟩

/-- Claim C9 witness: on a closed instance whose temporary open fails, the
query returns the empty capability result and flags unavailability. -/
theorem dynamicCaps_restore_and_degrade_witness :
    (getDeviceDynamicCaps (initMembers openFloat64Example) false trivialQueries
        [44100, 48000]).2 = emptyDynamicCaps ∧
    (getDeviceDynamicCaps (initMembers openFloat64Example) false trivialQueries
        [44100, 48000]).1.deviceUnavailableOnOpen = true :=
  (dynamicCaps_restore_and_degrade (initMembers openFloat64Example) false trivialQueries
    [44100, 48000]).2 rfl rfl

/-! ## Unified-format selection (claim C3) -/

theorem classifyChannels_foldl (le : Bool) (traits : List SampleTraits) :
    ∀ acc : Bool × Bool × Bool × Bool,
      List.foldl (classifyStep le) acc traits =
        (acc.1 && traits.all (fun t => !t.is_float),
         acc.2.1 && traits.all (fun t => !t.is_float && t.valid_bits == 16),
         acc.2.2.1 && traits.all (fun t =>
           (!t.is_float && t.size_bytes == 3 && t.valid_bits == 24) &&
           ((le && !t.is_be) || (!le && t.is_be))),
         acc.2.2.2 && traits.all (fun t => t.is_float && t.valid_bits == 32)) := by
  induction traits with
  | nil =>
    intro acc
    simp
  | cons t ts ih =>
    intro acc
    obtain ⟨a, b, c, d⟩ := acc
    rw [List.foldl_cons, ih]
    simp only [classifyStep, List.all_cons]
    cases hf : t.is_float <;>
      cases h16 : (t.valid_bits == 16) <;>
      cases h24 : (t.valid_bits == 24) <;>
      cases h32 : (t.valid_bits == 32) <;>
      cases hsz : (t.size_bytes == 3) <;>
      cases hbe : t.is_be <;>
      cases le <;>
      simp [hf, h16, h24, h32, hsz, hbe, Bool.and_assoc]

theorem classifyChannels_eq (le : Bool) (traits : List SampleTraits) :
    classifyChannels le traits =
      (traits.all (fun t => !t.is_float),
       traits.all (fun t => !t.is_float && t.valid_bits == 16),
       traits.all (fun t =>
         (!t.is_float && t.size_bytes == 3 && t.valid_bits == 24) &&
         ((le && !t.is_be) || (!le && t.is_be))),
       traits.all (fun t => t.is_float && t.valid_bits == 32)) := by
  unfold classifyChannels
  rw [classifyChannels_foldl]
  simp

/-- The source's flag-based selection agrees with the spec's
all-channels-simultaneously rule ladder. -/
theorem applySelection_format (le : Bool) (st : DeviceState) (traits : List SampleTraits) :
    (applySampleFormatSelection le st traits).settings.sampleFormat =
      specUnifiedFormat le traits := by
  unfold applySampleFormatSelection specUnifiedFormat
  rw [classifyChannels_eq]
  simp only []
  split_ifs <;> rfl

/-- Claim C3: the unified representation chosen at open follows the
first-match ladder (all 16-valid-bit int → int16; all native 3-byte
24-bit int → int24; all int → int32; all 32-bit float → float32; else
float64); only the working buffers of the chosen representation become
non-empty, and one 32-bit-float channel among otherwise-integer channels
falls through to float64. -/
theorem sampleFormat_selection_correct (le : Bool) (st : DeviceState) (len : Int)
    (traits : List SampleTraits) (hlen : 0 < len)
    (hout : 0 < st.settings.channels) (hin : 0 < st.settings.inputChannels) :
    (openSelectionState le st len traits).settings.sampleFormat =
      specUnifiedFormat le traits ∧
    outWorkBuf (openSelectionState le st len traits)
      (openSelectionState le st len traits).settings.sampleFormat ≠ 0 ∧
    inWorkBuf (openSelectionState le st len traits)
      (openSelectionState le st len traits).settings.sampleFormat ≠ 0 ∧
    (∀ f : SampleFormat, f ≠ (openSelectionState le st len traits).settings.sampleFormat →
      outWorkBuf (openSelectionState le st len traits) f = 0 ∧
      inWorkBuf (openSelectionState le st len traits) f = 0) ∧
    ((∃ t ∈ traits, t.is_float = true ∧ t.valid_bits = 32) →
      (∃ t ∈ traits, t.is_float = false) →
      (openSelectionState le st len traits).settings.sampleFormat = SampleFormat.float64) := by
  have h1sel : (openSelectionState le st len traits).settings.sampleFormat =
      specUnifiedFormat le traits :=
    applySelection_format le { initMembers st with nAsioBufferLen := len } traits
  refine ⟨h1sel, ?_⟩
  unfold openSelectionState applySampleFormatSelection
  rw [classifyChannels_eq]
  simp only []
  by_cases h16 : traits.all (fun t => !t.is_float && t.valid_bits == 16) = true
  · rw [if_pos h16]
    refine ⟨?_, ?_, ?_, ?_⟩
    · simp only [outWorkBuf, initMembers]
      exact Nat.mul_ne_zero (by omega) (by omega)
    · simp only [inWorkBuf, initMembers]
      exact Nat.mul_ne_zero (by omega) (by omega)
    · intro f hf
      cases f <;> simp_all [outWorkBuf, inWorkBuf, initMembers]
    · intro hfl _
      exfalso
      obtain ⟨t0, ht0m, ht0f, _⟩ := hfl
      have h := List.all_eq_true.mp h16 t0 ht0m
      simp [ht0f] at h
  · rw [if_neg h16]
    by_cases h24 : traits.all (fun t =>
        (!t.is_float && t.size_bytes == 3 && t.valid_bits == 24) &&
        ((le && !t.is_be) || (!le && t.is_be))) = true
    · rw [if_pos h24]
      refine ⟨?_, ?_, ?_, ?_⟩
      · simp only [outWorkBuf, initMembers]
        exact Nat.mul_ne_zero (by omega) (by omega)
      · simp only [inWorkBuf, initMembers]
        exact Nat.mul_ne_zero (by omega) (by omega)
      · intro f hf
        cases f <;> simp_all [outWorkBuf, inWorkBuf, initMembers]
      · intro hfl _
        exfalso
        obtain ⟨t0, ht0m, ht0f, _⟩ := hfl
        have h := List.all_eq_true.mp h24 t0 ht0m
        simp [ht0f] at h
    · rw [if_neg h24]
      by_cases h1 : traits.all (fun t => !t.is_float) = true
      · rw [if_pos h1]
        refine ⟨?_, ?_, ?_, ?_⟩
        · simp only [outWorkBuf, initMembers]
          exact Nat.mul_ne_zero (by omega) (by omega)
        · simp only [inWorkBuf, initMembers]
          exact Nat.mul_ne_zero (by omega) (by omega)
        · intro f hf
          cases f <;> simp_all [outWorkBuf, inWorkBuf, initMembers]
        · intro hfl _
          exfalso
          obtain ⟨t0, ht0m, ht0f, _⟩ := hfl
          have h := List.all_eq_true.mp h1 t0 ht0m
          simp [ht0f] at h
      · rw [if_neg h1]
        by_cases h32 : traits.all (fun t => t.is_float && t.valid_bits == 32) = true
        · rw [if_pos h32]
          refine ⟨?_, ?_, ?_, ?_⟩
          · simp only [outWorkBuf, initMembers]
            exact Nat.mul_ne_zero (by omega) (by omega)
          · simp only [inWorkBuf, initMembers]
            exact Nat.mul_ne_zero (by omega) (by omega)
          · intro f hf
            cases f <;> simp_all [outWorkBuf, inWorkBuf, initMembers]
          · intro _ hint
            exfalso
            obtain ⟨t1, ht1m, ht1f⟩ := hint
            have h := List.all_eq_true.mp h32 t1 ht1m
            simp [ht1f] at h
        · rw [if_neg h32]
          refine ⟨?_, ?_, ?_, ?_⟩
          · simp only [outWorkBuf, initMembers]
            exact Nat.mul_ne_zero (by omega) (by omega)
          · simp only [inWorkBuf, initMembers]
            exact Nat.mul_ne_zero (by omega) (by omega)
          · intro f hf
            cases f <;> simp_all [outWorkBuf, inWorkBuf, initMembers]
          · intro _ _
            rfl

/-- Claim C3 witness: four channels all reporting a 16-valid-bit integer
type select the 16-bit integer representation, matching the spec ladder. -/
theorem sampleFormat_selection_correct_witness :
    (openSelectionState true openFloat64Example 512
        [⟨false, 16, 2, false⟩, ⟨false, 16, 2, false⟩,
         ⟨false, 16, 2, false⟩, ⟨false, 16, 2, false⟩]).settings.sampleFormat =
      specUnifiedFormat true
        [⟨false, 16, 2, false⟩, ⟨false, 16, 2, false⟩,
         ⟨false, 16, 2, false⟩, ⟨false, 16, 2, false⟩] :=
  (sampleFormat_selection_correct true openFloat64Example 512
    [⟨false, 16, 2, false⟩, ⟨false, 16, 2, false⟩,
     ⟨false, 16, 2, false⟩, ⟨false, 16, 2, false⟩]
    (by decide) (by decide) (by decide)).1

end AsioDevice
